import Mathlib

/-!
Verification of the starlings flocking simulation: a shallow embedding of the
boid velocity fragment shader (src/shaders/boidVelocityFrag.glsl) together with
the pointer-driven predator state, the bird-count configuration and the
texture initialization code of src/js-funcs/starlings.js.  GLSL float
arithmetic is idealized over the reals; the operations that GLSL leaves
undefined (division by zero, normalize of the zero vector) are tracked by a
separate checked model returning Option.
-/

/-- Math.ceil(Math.sqrt(n)) on a natural bird count (starlings.js line 93;
    exact for counts far below the float53 limit). -/
def ceilSqrt (n : ℕ) : ℕ :=
  if Nat.sqrt n * Nat.sqrt n = n then Nat.sqrt n else Nat.sqrt n + 1

/-- Default compute texture resolution (starlings.js line 46). -/
def defaultResolution : ℕ := 32

/-- Bird count and grid resolution selection in runSimulation (starlings.js
    lines 86-98): an option birds that is a positive integer overrides the
    resolution, which is recomputed as ceil(sqrt(birds)); a missing,
    non-integer or non-positive option falls back to resolution squared.
    (A non-integer JS value fails Number.isInteger and takes the same branch
    as a missing one, so the option is modelled as an optional integer.)
    Returns the pair (birdsCount, resolution). -/
def computeBirds (birds : Option ℤ) (resolution : ℕ) : ℕ × ℕ :=
  match birds with
  | some b =>
      if 0 < b then (b.toNat, ceilSqrt b.toNat) else (resolution * resolution, resolution)
  | none => (resolution * resolution, resolution)

open scoped Classical

noncomputable section

/-- A 3-component float vector (GLSL vec3), idealized over the reals. -/
@[ext]
structure Vec3 where
  x : ℝ
  y : ℝ
  z : ℝ

namespace Vec3

/-- Componentwise addition. -/
def add (a b : Vec3) : Vec3 := ⟨a.x + b.x, a.y + b.y, a.z + b.z⟩

/-- Componentwise subtraction. -/
def sub (a b : Vec3) : Vec3 := ⟨a.x - b.x, a.y - b.y, a.z - b.z⟩

/-- Scaling of a vector by a scalar. -/
def smul (v : Vec3) (c : ℝ) : Vec3 := ⟨v.x * c, v.y * c, v.z * c⟩

/-- Componentwise negation. -/
def neg (v : Vec3) : Vec3 := ⟨-v.x, -v.y, -v.z⟩

/-- The zero vector. -/
def zero : Vec3 := ⟨0, 0, 0⟩

/-- The squared euclidean norm, dot(v, v). -/
def normSq (v : Vec3) : ℝ := v.x * v.x + v.y * v.y + v.z * v.z

/-- GLSL length: the euclidean norm. -/
def len (v : Vec3) : ℝ := Real.sqrt v.normSq

/-- GLSL normalize: the vector divided by its length.  On the zero vector GLSL
    leaves the result undefined; the total model returns the zero vector and
    the checked model below flags the call instead. -/
def normalize (v : Vec3) : Vec3 := v.smul (v.len)⁻¹

theorem normSq_nonneg (v : Vec3) : 0 ≤ v.normSq := by
  have hx := mul_self_nonneg v.x
  have hy := mul_self_nonneg v.y
  have hz := mul_self_nonneg v.z
  unfold normSq; linarith

theorem len_nonneg (v : Vec3) : 0 ≤ v.len := Real.sqrt_nonneg _

theorem len_mk (a b c : ℝ) : (Vec3.mk a b c).len = Real.sqrt (a * a + b * b + c * c) := rfl

/-- Evaluation helper: the length of a concrete vector is the nonnegative
    square root of its squared norm. -/
theorem len_eval {a b c r : ℝ} (hr : 0 ≤ r) (h : r * r = a * a + b * b + c * c) :
    (Vec3.mk a b c).len = r := by
  rw [len_mk, ← h, Real.sqrt_mul_self hr]

theorem len_eq_zero_iff (v : Vec3) : v.len = 0 ↔ v = zero := by
  constructor
  · intro h
    have h0 : v.normSq ≤ 0 := Real.sqrt_eq_zero'.mp h
    have hx := mul_self_nonneg v.x
    have hy := mul_self_nonneg v.y
    have hz := mul_self_nonneg v.z
    have hx0 : v.x * v.x = 0 := by unfold normSq at h0; linarith
    have hy0 : v.y * v.y = 0 := by unfold normSq at h0; linarith
    have hz0 : v.z * v.z = 0 := by unfold normSq at h0; linarith
    ext
    · exact mul_self_eq_zero.mp hx0
    · exact mul_self_eq_zero.mp hy0
    · exact mul_self_eq_zero.mp hz0
  · intro h; subst h; simp [len, normSq, zero]

theorem normSq_smul (v : Vec3) (c : ℝ) : (v.smul c).normSq = c ^ 2 * v.normSq := by
  unfold normSq smul; ring

theorem len_smul (v : Vec3) (c : ℝ) : (v.smul c).len = |c| * v.len := by
  unfold len
  rw [normSq_smul, Real.sqrt_mul (sq_nonneg c), Real.sqrt_sq_eq_abs]

theorem len_normalize {v : Vec3} (h : v.len ≠ 0) : (normalize v).len = 1 := by
  rw [normalize, len_smul, abs_inv, abs_of_nonneg (len_nonneg v)]
  field_simp

theorem add_zero_vec (v : Vec3) : v.add zero = v := by
  unfold add zero; ext <;> simp

theorem sub_zero_vec (v : Vec3) : v.sub zero = v := by
  unfold sub zero; ext <;> simp

theorem smul_zero_right (v : Vec3) : v.smul 0 = zero := by
  unfold smul zero; ext <;> simp

theorem normalize_zero : normalize zero = zero := by
  unfold normalize
  rw [smul]
  unfold zero
  ext <;> simp

end Vec3

/-- The configuration uniforms of the velocity shader: separation_distance,
    alignment_distance, cohesion_distance and the bounds define
    (boidVelocityFrag.glsl lines 3-5 and 20, set from the options in
    starlings.js lines 200-205). -/
structure Params where
  separation_distance : ℝ
  alignment_distance : ℝ
  cohesion_distance : ℝ
  bounds : ℝ

/-- const float PI = 3.14159 (the shader uses this truncated constant, not
    exact pi). -/
def shaderPI : ℝ := 3.14159

/-- const float PI_2 = PI * 2.0. -/
def PI_2 : ℝ := shaderPI * 2.0

/-- const float SPEED_LIMIT = 10.0. -/
def SPEED_LIMIT : ℝ := 10.0

/-- float preyRadius = 50.0. -/
def preyRadius : ℝ := 50.0

/-- zoneRadius = separation_distance + alignment_distance + cohesion_distance
    (line 25). -/
def zoneRadius (p : Params) : ℝ :=
  p.separation_distance + p.alignment_distance + p.cohesion_distance

/-- separationThresh = separation_distance / zoneRadius (line 26). -/
def separationThresh (p : Params) : ℝ := p.separation_distance / zoneRadius p

/-- alignmentThresh = (separation_distance + alignment_distance) / zoneRadius
    (line 27). -/
def alignmentThresh (p : Params) : ℝ :=
  (p.separation_distance + p.alignment_distance) / zoneRadius p

/-- zoneRadiusSquared = zoneRadius * zoneRadius (line 28). -/
def zoneRadiusSquared (p : Params) : ℝ := zoneRadius p * zoneRadius p

/-- Separation force magnitude, f = (separationThresh / percent - 1.0) *
    del_change (line 88). -/
def separationForceMag (sepT percent dt : ℝ) : ℝ := (sepT / percent - 1.0) * dt

/-- Alignment weight, f = (0.5 - cos(adjustedPercent * PI_2) * 0.5 + 0.5) *
    del_change (line 94). -/
def alignmentWeight (t dt : ℝ) : ℝ := (0.5 - Real.cos (t * PI_2) * 0.5 + 0.5) * dt

/-- Cohesion weight, f = (0.5 - (cos(adjustedPercent * PI_2) * -0.5 + 0.5)) *
    del_change (line 99). -/
def cohesionWeight (t dt : ℝ) : ℝ := (0.5 - (Real.cos (t * PI_2) * (-0.5) + 0.5)) * dt

/-- dir = predator * UPPER_bounds - selfPosition with dir.z zeroed
    (lines 50-51). -/
def planarPredDir (p : Params) (pred selfPos : Vec3) : Vec3 :=
  let dir := (pred.smul p.bounds).sub selfPos
  ⟨dir.x, dir.y, 0⟩

/-- The predator block of main (lines 50-62): inside the prey radius the
    velocity gains normalize(dir) * (distSquared / preyRadiusSq) * del_change *
    160 and the speed limit is raised by 5. -/
def predStep (p : Params) (pred : Vec3) (dt : ℝ) (selfPos v : Vec3) (limit : ℝ) :
    Vec3 × ℝ :=
  let dir := planarPredDir p pred selfPos
  let dist := dir.len
  if dist < preyRadius then
    (v.add ((Vec3.normalize dir).smul (dist * dist / (preyRadius * preyRadius) * dt * 160)),
      limit + 5.0)
  else (v, limit)

/-- dir = selfPosition - central with dir.y scaled by 2.5 (lines 64-68). -/
def centerDir (selfPos : Vec3) : Vec3 :=
  let dir := selfPos.sub Vec3.zero
  ⟨dir.x, dir.y * 2.5, dir.z⟩

/-- The center pull of main (lines 64-69): velocity -= normalize(dir) *
    del_change * 6. -/
def centerStep (dt : ℝ) (selfPos v : Vec3) : Vec3 :=
  v.sub ((Vec3.normalize (centerDir selfPos)).smul (dt * 6))

/-- One iteration of the neighbor loop (lines 74-101), as the signed velocity
    delta contributed by the neighbor record (position, velocity). -/
def neighborContrib (p : Params) (dt : ℝ) (selfPos : Vec3) (nb : Vec3 × Vec3) : Vec3 :=
  let dir := nb.1.sub selfPos
  let dist := dir.len
  if dist < 0.0001 then Vec3.zero
  else if dist * dist > zoneRadiusSquared p then Vec3.zero
  else
    let percent := dist * dist / zoneRadiusSquared p
    if percent < separationThresh p then
      ((Vec3.normalize dir).smul (separationForceMag (separationThresh p) percent dt)).neg
    else if percent < alignmentThresh p then
      let threshold := alignmentThresh p - separationThresh p
      let adjustedPercent := (percent - separationThresh p) / threshold
      (Vec3.normalize nb.2).smul (alignmentWeight adjustedPercent dt)
    else
      let threshold := 1.0 - alignmentThresh p
      let adjustedPercent := (percent - alignmentThresh p) / threshold
      (Vec3.normalize dir).smul (cohesionWeight adjustedPercent dt)

/-- The velocity accumulated by main before the final speed clamp: predator
    block, center pull, then the neighbor loop folded over the grid records. -/
def preClampVelocity (p : Params) (pred : Vec3) (dt : ℝ) (selfPos selfVel : Vec3)
    (nbs : List (Vec3 × Vec3)) : Vec3 :=
  let vl := predStep p pred dt selfPos selfVel SPEED_LIMIT
  let v2 := centerStep dt selfPos vl.1
  nbs.foldl (fun acc nb => acc.add (neighborContrib p dt selfPos nb)) v2

/-- One invocation of main of boidVelocityFrag.glsl for one agent: the
    accumulated velocity, clamped to the active limit when its length exceeds
    it (lines 104-106). -/
def velocityKernel (p : Params) (pred : Vec3) (dt : ℝ) (selfPos selfVel : Vec3)
    (nbs : List (Vec3 × Vec3)) : Vec3 :=
  if (preClampVelocity p pred dt selfPos selfVel nbs).len >
      (predStep p pred dt selfPos selfVel SPEED_LIMIT).2 then
    (Vec3.normalize (preClampVelocity p pred dt selfPos selfVel nbs)).smul
      (predStep p pred dt selfPos selfVel SPEED_LIMIT).2
  else preClampVelocity p pred dt selfPos selfVel nbs

/-- Division with an explicit division-by-zero check; GLSL leaves x / 0
    undefined. -/
def divChecked (a b : ℝ) : Option ℝ := if b = 0 then none else some (a / b)

/-- GLSL normalize with its undefined zero-vector case made explicit. -/
def normalizeChecked (v : Vec3) : Option Vec3 :=
  if v = Vec3.zero then none else some (Vec3.normalize v)

/-- Checked variant of the predator block (lines 50-62). -/
def predStepChecked (p : Params) (pred : Vec3) (dt : ℝ) (selfPos v : Vec3) (limit : ℝ) :
    Option (Vec3 × ℝ) :=
  let dir := planarPredDir p pred selfPos
  let dist := dir.len
  if dist < preyRadius then
    (normalizeChecked dir).map fun n =>
      (v.add (n.smul (dist * dist / (preyRadius * preyRadius) * dt * 160)), limit + 5.0)
  else some (v, limit)

/-- Checked variant of the center pull (lines 64-69): the normalize call has no
    zero-length guard, so an agent sitting exactly at the origin makes it
    undefined. -/
def centerStepChecked (dt : ℝ) (selfPos v : Vec3) : Option Vec3 :=
  (normalizeChecked (centerDir selfPos)).map fun n => v.sub (n.smul (dt * 6))

/-- Checked variant of one neighbor-loop iteration (lines 74-101). -/
def neighborContribChecked (p : Params) (dt : ℝ) (selfPos : Vec3) (nb : Vec3 × Vec3) :
    Option Vec3 :=
  let dir := nb.1.sub selfPos
  let dist := dir.len
  if dist < 0.0001 then some Vec3.zero
  else if dist * dist > zoneRadiusSquared p then some Vec3.zero
  else
    (divChecked (dist * dist) (zoneRadiusSquared p)).bind fun percent =>
      if percent < separationThresh p then
        (divChecked (separationThresh p) percent).bind fun q =>
          (normalizeChecked dir).map fun n => (n.smul ((q - 1.0) * dt)).neg
      else if percent < alignmentThresh p then
        (divChecked (percent - separationThresh p)
            (alignmentThresh p - separationThresh p)).bind fun adjustedPercent =>
          (normalizeChecked nb.2).map fun n => n.smul (alignmentWeight adjustedPercent dt)
      else
        (divChecked (percent - alignmentThresh p) (1.0 - alignmentThresh p)).bind
          fun adjustedPercent =>
            (normalizeChecked dir).map fun n => n.smul (cohesionWeight adjustedPercent dt)

/-- Checked variant of the final speed clamp (lines 104-106). -/
def clampChecked (limit : ℝ) (v : Vec3) : Option Vec3 :=
  if v.len > limit then (normalizeChecked v).map fun n => n.smul limit else some v

/-- Checked variant of one invocation of main: returns none exactly when the
    shader executes a division by zero or a normalize of the zero vector on
    the path actually taken, including the threshold divisions of lines 26-27
    that run before the loop. -/
def velocityKernelChecked (p : Params) (pred : Vec3) (dt : ℝ) (selfPos selfVel : Vec3)
    (nbs : List (Vec3 × Vec3)) : Option Vec3 :=
  (divChecked p.separation_distance (zoneRadius p)).bind fun _sepT =>
  (divChecked (p.separation_distance + p.alignment_distance) (zoneRadius p)).bind fun _alT =>
  (predStepChecked p pred dt selfPos selfVel SPEED_LIMIT).bind fun vl =>
  (centerStepChecked dt selfPos vl.1).bind fun v2 =>
  (nbs.foldlM (fun acc nb => (neighborContribChecked p dt selfPos nb).map fun c => acc.add c)
      v2).bind fun v3 =>
  clampChecked vl.2 v3

/-- The pointer and predator state tracked by Starlings: mouseX and mouseY
    (starlings.js lines 113-114) and the predator uniform vector
    (starlings.js line 204). -/
structure MouseState where
  mouseX : ℝ
  mouseY : ℝ
  predator : Vec3

/-- onDocumentMouseMove (starlings.js lines 314-317). -/
def onDocumentMouseMove (halfX halfY clientX clientY : ℝ) (st : MouseState) : MouseState :=
  { st with mouseX := clientX - halfX, mouseY := clientY - halfY }

/-- The predator update at the start of render (starlings.js lines 285-297):
    when the stored pointer position is inside ten half-extents, the predator
    uniform is set from it and the pointer position is parked at 10000; the
    predator uniform itself is never cleared. -/
def renderPredatorUpdate (halfX halfY : ℝ) (st : MouseState) : MouseState :=
  if |st.mouseX| < halfX * 10 ∧ |st.mouseY| < halfY * 10 then
    { mouseX := 10000, mouseY := 10000,
      predator := ⟨0.5 * st.mouseX / halfX, -0.5 * st.mouseY / halfY, 0⟩ }
  else st

/-- The initial pointer state: mouseX = mouseY = 0 (starlings.js lines
    113-114) and predator = new Vector3() (line 204). -/
def initialMouseState : MouseState := ⟨0, 0, Vec3.zero⟩

/-- One component written by fillPositionTexture (starlings.js lines 361-372):
    Math.random() * 100, with the random source r ranging over the half-open
    unit interval. -/
def posInitComponent (r : ℝ) : ℝ := r * 100

/-- One component written by fillVelocityTexture (starlings.js lines 378-389):
    (Math.random() - 0.5) * 10. -/
def velInitComponent (r : ℝ) : ℝ := (r - 0.5) * 10

/-- Modelled from the spec: sections 4.2 step 3 and 4.4 state that on a frame
    with no pointer sample the predator step is skipped entirely.  The shader
    has no such mode (its predator branch always runs on the current uniform
    value), so the skipped-predator kernel is reconstructed here from the
    words of the spec for comparison with the code. -/
def velocityKernelNoPred (p : Params) (dt : ℝ) (selfPos selfVel : Vec3)
    (nbs : List (Vec3 × Vec3)) : Vec3 :=
  let v2 := centerStep dt selfPos selfVel
  let v3 := nbs.foldl (fun acc nb => acc.add (neighborContrib p dt selfPos nb)) v2
  if v3.len > SPEED_LIMIT then (Vec3.normalize v3).smul SPEED_LIMIT else v3

/-- The limit returned by the predator block is 15 inside the prey radius and
    10 outside it. -/
theorem predStep_snd (p : Params) (pred : Vec3) (dt : ℝ) (selfPos v : Vec3) :
    (predStep p pred dt selfPos v SPEED_LIMIT).2 =
      (if (planarPredDir p pred selfPos).len < preyRadius then (15.0 : ℝ) else 10.0) := by
  unfold predStep
  by_cases hc : (planarPredDir p pred selfPos).len < preyRadius
  · simp only [hc, if_true, SPEED_LIMIT]; norm_num
  · simp only [hc, if_false, SPEED_LIMIT]

/-- C1: after one velocity kernel invocation the magnitude of the written
    velocity is at most the active limit, 15 when the planar distance between
    the agent and the predator target is below the prey radius 50 and 10
    otherwise; and whenever the pre-clamp velocity magnitude exceeds the
    limit, the written velocity has magnitude exactly the limit. -/
theorem c1_speed_bound (p : Params) (pred : Vec3) (dt : ℝ) (selfPos selfVel : Vec3)
    (nbs : List (Vec3 × Vec3)) :
    (velocityKernel p pred dt selfPos selfVel nbs).len ≤
      (if (planarPredDir p pred selfPos).len < preyRadius then (15.0 : ℝ) else 10.0) ∧
    ((if (planarPredDir p pred selfPos).len < preyRadius then (15.0 : ℝ) else 10.0) <
        (preClampVelocity p pred dt selfPos selfVel nbs).len →
      (velocityKernel p pred dt selfPos selfVel nbs).len =
        (if (planarPredDir p pred selfPos).len < preyRadius then (15.0 : ℝ) else 10.0)) := by
  set L := (if (planarPredDir p pred selfPos).len < preyRadius then (15.0 : ℝ) else 10.0)
    with hLdef
  have hLpos : 0 < L := by
    rw [hLdef]; split <;> norm_num
  have hker : velocityKernel p pred dt selfPos selfVel nbs =
      (if (preClampVelocity p pred dt selfPos selfVel nbs).len > L then
        (Vec3.normalize (preClampVelocity p pred dt selfPos selfVel nbs)).smul L
       else preClampVelocity p pred dt selfPos selfVel nbs) := by
    unfold velocityKernel
    rw [predStep_snd, ← hLdef]
  by_cases hgt : (preClampVelocity p pred dt selfPos selfVel nbs).len > L
  · have hne : (preClampVelocity p pred dt selfPos selfVel nbs).len ≠ 0 := by
      intro h0; rw [h0] at hgt; linarith
    have hlen :
        ((Vec3.normalize (preClampVelocity p pred dt selfPos selfVel nbs)).smul L).len = L := by
      rw [Vec3.len_smul, Vec3.len_normalize hne, mul_one, abs_of_pos hLpos]
    refine ⟨?_, fun _ => ?_⟩
    · rw [hker, if_pos hgt, hlen]
    · rw [hker, if_pos hgt, hlen]
  · refine ⟨?_, fun h => absurd h hgt⟩
    rw [hker, if_neg hgt]
    exact le_of_not_lt hgt

/-- Witness for C1 at a concrete input: an agent far from the predator target
    with pre-clamp speed 100 is written back with magnitude exactly 10. -/
theorem c1_speed_bound_witness :
    (velocityKernel ⟨20, 30, 20, 500⟩ Vec3.zero 0 ⟨500, 0, 0⟩ ⟨100, 0, 0⟩ []).len = 10.0 := by
  have hpd : planarPredDir ⟨20, 30, 20, 500⟩ Vec3.zero ⟨500, 0, 0⟩ = ⟨-500, 0, 0⟩ := by
    simp [planarPredDir, Vec3.smul, Vec3.sub, Vec3.zero, Vec3.mk.injEq]
  have hpdlen : (planarPredDir ⟨20, 30, 20, 500⟩ Vec3.zero ⟨500, 0, 0⟩).len = 500 := by
    rw [hpd]; exact Vec3.len_eval (by norm_num) (by norm_num)
  have hif : (if (planarPredDir ⟨20, 30, 20, 500⟩ Vec3.zero ⟨500, 0, 0⟩).len < preyRadius
      then (15.0 : ℝ) else 10.0) = 10.0 := by
    rw [hpdlen, if_neg]
    norm_num [preyRadius]
  have hps : predStep ⟨20, 30, 20, 500⟩ Vec3.zero 0 ⟨500, 0, 0⟩ ⟨100, 0, 0⟩ SPEED_LIMIT =
      (⟨100, 0, 0⟩, SPEED_LIMIT) := by
    simp only [predStep]
    rw [hpdlen, if_neg]
    norm_num [preyRadius]
  have hpre : preClampVelocity ⟨20, 30, 20, 500⟩ Vec3.zero 0 ⟨500, 0, 0⟩ ⟨100, 0, 0⟩ [] =
      ⟨100, 0, 0⟩ := by
    unfold preClampVelocity
    rw [hps]
    simp [centerStep, Vec3.smul_zero_right, Vec3.sub_zero_vec]
  have hprelen :
      (preClampVelocity ⟨20, 30, 20, 500⟩ Vec3.zero 0 ⟨500, 0, 0⟩ ⟨100, 0, 0⟩ []).len = 100 := by
    rw [hpre]; exact Vec3.len_eval (by norm_num) (by norm_num)
  have h := (c1_speed_bound ⟨20, 30, 20, 500⟩ Vec3.zero 0 ⟨500, 0, 0⟩ ⟨100, 0, 0⟩ []).2
  rw [hif] at h
  exact h (by rw [hprelen]; norm_num)

/-- C6: letting dir be the predator target minus the agent position with its z
    component zeroed and d its length, the predator block adds
    normalize(dir) * (d * d / (50 * 50) * dt * 160) to the velocity and raises
    the limit by exactly 5 precisely when d < 50, and leaves both unchanged
    when d >= 50. -/
theorem c6_predator_branch (p : Params) (pred : Vec3) (dt : ℝ) (selfPos v : Vec3)
    (limit : ℝ) :
    ((planarPredDir p pred selfPos).len < 50 →
      predStep p pred dt selfPos v limit =
        (v.add ((Vec3.normalize (planarPredDir p pred selfPos)).smul
            ((planarPredDir p pred selfPos).len * (planarPredDir p pred selfPos).len /
              (50 * 50) * dt * 160)),
          limit + 5.0)) ∧
    (50 ≤ (planarPredDir p pred selfPos).len →
      predStep p pred dt selfPos v limit = (v, limit)) := by
  have hpr : preyRadius = (50 : ℝ) := by norm_num [preyRadius]
  constructor
  · intro h
    simp only [predStep, hpr]
    rw [if_pos h]
  · intro h
    simp only [predStep, hpr]
    rw [if_neg (not_lt.mpr h)]

/-- Witness for C6 at a concrete input: predator uniform (0.1, 0, 0) with
    bounds 500 puts the target at (50, 0, 0); the agent at (20, 0, 0) is at
    planar distance 30 < 50, so with dt = 1 the velocity gains
    (1, 0, 0) * (900 / 2500 * 160) = (57.6, 0, 0) and the limit becomes 15. -/
theorem c6_predator_branch_witness :
    predStep ⟨20, 30, 20, 500⟩ ⟨0.1, 0, 0⟩ 1 ⟨20, 0, 0⟩ ⟨0, 0, 0⟩ 10 = (⟨57.6, 0, 0⟩, 15) := by
  have hpd : planarPredDir ⟨20, 30, 20, 500⟩ ⟨0.1, 0, 0⟩ ⟨20, 0, 0⟩ = ⟨30, 0, 0⟩ := by
    simp [planarPredDir, Vec3.smul, Vec3.sub, Vec3.mk.injEq]
    norm_num
  have hlen : (planarPredDir ⟨20, 30, 20, 500⟩ ⟨0.1, 0, 0⟩ ⟨20, 0, 0⟩).len = 30 := by
    rw [hpd]; exact Vec3.len_eval (by norm_num) (by norm_num)
  have h := (c6_predator_branch ⟨20, 30, 20, 500⟩ ⟨0.1, 0, 0⟩ 1 ⟨20, 0, 0⟩ ⟨0, 0, 0⟩ 10).1
    (by rw [hlen]; norm_num)
  rw [h, hlen, hpd]
  have hnorm : Vec3.normalize ⟨30, 0, 0⟩ = ⟨1, 0, 0⟩ := by
    unfold Vec3.normalize
    rw [show ((⟨30, 0, 0⟩ : Vec3)).len = 30 from Vec3.len_eval (by norm_num) (by norm_num)]
    simp [Vec3.smul, Vec3.mk.injEq]
  rw [hnorm]
  simp [Vec3.add, Vec3.smul, Prod.ext_iff, Vec3.mk.injEq]
  norm_num

/-- C7: in the neighbor loop a record contributes nothing when its distance d
    is below 1e-4 or d * d exceeds the squared zone radius; otherwise the
    normalized distance percent is at most 1, the separation and cohesion
    ranges cannot overlap, and exactly the zone formula selected by percent
    against the two thresholds is applied. -/
theorem c7_zone_trichotomy (p : Params) (dt : ℝ) (selfPos posJ velJ : Vec3)
    (hs : 0 ≤ p.separation_distance) (ha : 0 ≤ p.alignment_distance)
    (hc : 0 ≤ p.cohesion_distance) :
    ((posJ.sub selfPos).len < 0.0001 ∨
        (posJ.sub selfPos).len * (posJ.sub selfPos).len > zoneRadiusSquared p →
      neighborContrib p dt selfPos (posJ, velJ) = Vec3.zero) ∧
    (0.0001 ≤ (posJ.sub selfPos).len →
      (posJ.sub selfPos).len * (posJ.sub selfPos).len ≤ zoneRadiusSquared p →
      ∀ percent,
        percent = (posJ.sub selfPos).len * (posJ.sub selfPos).len / zoneRadiusSquared p →
        percent ≤ 1 ∧
        ¬(percent < separationThresh p ∧ alignmentThresh p ≤ percent) ∧
        (percent < separationThresh p →
          neighborContrib p dt selfPos (posJ, velJ) =
            ((Vec3.normalize (posJ.sub selfPos)).smul
              (separationForceMag (separationThresh p) percent dt)).neg) ∧
        (separationThresh p ≤ percent → percent < alignmentThresh p →
          neighborContrib p dt selfPos (posJ, velJ) =
            (Vec3.normalize velJ).smul
              (alignmentWeight
                ((percent - separationThresh p) /
                  (alignmentThresh p - separationThresh p)) dt)) ∧
        (alignmentThresh p ≤ percent →
          neighborContrib p dt selfPos (posJ, velJ) =
            (Vec3.normalize (posJ.sub selfPos)).smul
              (cohesionWeight ((percent - alignmentThresh p) / (1 - alignmentThresh p)) dt))) := by
  constructor
  · intro hskip
    rcases hskip with hlt | hgt
    · simp only [neighborContrib]
      rw [if_pos hlt]
    · by_cases hlt : (posJ.sub selfPos).len < 0.0001
      · simp only [neighborContrib]; rw [if_pos hlt]
      · simp only [neighborContrib]; rw [if_neg hlt, if_pos hgt]
  · intro h1 h2 percent hp
    have hd0 : (0 : ℝ) < (posJ.sub selfPos).len := lt_of_lt_of_le (by norm_num) h1
    have hdd : (0 : ℝ) < (posJ.sub selfPos).len * (posJ.sub selfPos).len := mul_pos hd0 hd0
    have hZsq : (0 : ℝ) < zoneRadiusSquared p := lt_of_lt_of_le hdd h2
    have hZnonneg : (0 : ℝ) ≤ zoneRadius p := by
      unfold zoneRadius; linarith
    have hZpos : (0 : ℝ) < zoneRadius p := by
      rcases lt_or_eq_of_le hZnonneg with h | h
      · exact h
      · exfalso
        rw [zoneRadiusSquared, ← h] at hZsq
        simp at hZsq
    have hthresh : separationThresh p ≤ alignmentThresh p := by
      rw [separationThresh, alignmentThresh, div_le_div_iff₀ hZpos hZpos]
      nlinarith
    have hple : percent ≤ 1 := by
      rw [hp]
      exact (div_le_one hZsq).mpr h2
    refine ⟨hple, ?_, ?_, ?_, ?_⟩
    · rintro ⟨hlo, hhi⟩
      linarith
    · intro hsep
      simp only [neighborContrib]
      rw [if_neg (not_lt.mpr h1), if_neg (not_lt.mpr h2), ← hp, if_pos hsep]
    · intro hge hal
      simp only [neighborContrib]
      rw [if_neg (not_lt.mpr h1), if_neg (not_lt.mpr h2), ← hp,
        if_neg (not_lt.mpr hge), if_pos hal]
    · intro hco
      simp only [neighborContrib]
      rw [if_neg (not_lt.mpr h1), if_neg (not_lt.mpr h2), ← hp,
        if_neg (not_lt.mpr (hthresh.trans hco)), if_neg (not_lt.mpr hco)]
      norm_num

/-- Witness for C7 at a concrete input: with the default zone distances the
    zone radius is 70, and a neighbor at distance 100 (squared distance 10000
    > 4900) contributes nothing. -/
theorem c7_zone_trichotomy_witness :
    neighborContrib ⟨20, 30, 20, 500⟩ 0.016 ⟨0, 0, 0⟩ (⟨100, 0, 0⟩, ⟨0, 0, 0⟩) = Vec3.zero := by
  have hsub : ((⟨100, 0, 0⟩ : Vec3).sub ⟨0, 0, 0⟩) = ⟨100, 0, 0⟩ := by
    simp [Vec3.sub]
  have h := (c7_zone_trichotomy ⟨20, 30, 20, 500⟩ 0.016 ⟨0, 0, 0⟩ ⟨100, 0, 0⟩ ⟨0, 0, 0⟩
    (by norm_num) (by norm_num) (by norm_num)).1
  apply h
  right
  rw [hsub, Vec3.len_eval (r := 100) (by norm_num) (by norm_num)]
  norm_num [zoneRadiusSquared, zoneRadius]

/-- ceilSqrt n squares to at least n and is the least natural doing so. -/
theorem ceilSqrt_spec (n : ℕ) :
    n ≤ ceilSqrt n * ceilSqrt n ∧ ∀ m : ℕ, n ≤ m * m → ceilSqrt n ≤ m := by
  unfold ceilSqrt
  by_cases h : Nat.sqrt n * Nat.sqrt n = n
  · rw [if_pos h]
    refine ⟨le_of_eq h.symm, fun m hm => ?_⟩
    have hle := Nat.sqrt_le_sqrt hm
    rwa [Nat.sqrt_eq m] at hle
  · rw [if_neg h]
    refine ⟨le_of_lt (Nat.lt_succ_sqrt n), fun m hm => ?_⟩
    by_contra hcon
    push_neg at hcon
    have hm' : m ≤ Nat.sqrt n := Nat.lt_succ_iff.mp hcon
    have h1 : m * m ≤ Nat.sqrt n * Nat.sqrt n := Nat.mul_le_mul hm' hm'
    have h2 : Nat.sqrt n * Nat.sqrt n ≤ n := Nat.sqrt_le n
    exact h (le_antisymm h2 (hm.trans h1))

/-- C9: a positive integer birds option makes the agent count equal birds and
    the resolution the ceiling of its square root (least natural whose square
    covers the count); a missing or non-positive option yields resolution
    squared agents, 1024 at the default resolution 32. -/
theorem c9_agent_count (res : ℕ) :
    (∀ b : ℤ, 0 < b →
      computeBirds (some b) res = (b.toNat, ceilSqrt b.toNat) ∧
      b.toNat ≤ ceilSqrt b.toNat * ceilSqrt b.toNat ∧
      (∀ m : ℕ, b.toNat ≤ m * m → ceilSqrt b.toNat ≤ m)) ∧
    (∀ b : ℤ, b ≤ 0 → computeBirds (some b) res = (res * res, res)) ∧
    computeBirds none res = (res * res, res) ∧
    computeBirds none defaultResolution = (1024, 32) := by
  refine ⟨fun b hb => ⟨?_, (ceilSqrt_spec b.toNat).1, (ceilSqrt_spec b.toNat).2⟩,
    fun b hb => ?_, rfl, by decide⟩
  · simp [computeBirds, hb]
  · simp [computeBirds, not_lt.mpr hb]

/-- Witness for C9 at a concrete input: birds = 5 gives 5 agents on a 3 by 3
    grid. -/
theorem c9_agent_count_witness : computeBirds (some 5) 32 = (5, 3) := by
  have h := ((c9_agent_count 32).1 5 (by norm_num)).1
  rw [h]
  have h5 : Nat.sqrt 5 = 2 := (Nat.eq_sqrt.mpr (by norm_num)).symm
  simp [ceilSqrt, h5]

/-- C8 counterexample: no value of the random source in the half-open unit
    interval makes fillVelocityTexture write the component value 5, so the
    closed upper endpoint of the claimed velocity interval is never attained. -/
theorem c8_velocity_endpoint_cex :
    ¬ ∃ r : ℝ, 0 ≤ r ∧ r < 1 ∧ velInitComponent r = 5 := by
  rintro ⟨r, -, hr1, he⟩
  unfold velInitComponent at he
  nlinarith

/-- C8 corrected: position components lie in the half-open interval from 0
    inclusive to 100 exclusive with every such value attained, and velocity
    components lie in the half-open interval from -5 inclusive to 5 exclusive
    with every such value attained. -/
theorem c8_init_ranges (r y : ℝ) :
    (0 ≤ r → r < 1 →
      0 ≤ posInitComponent r ∧ posInitComponent r < 100 ∧
      -5 ≤ velInitComponent r ∧ velInitComponent r < 5) ∧
    (0 ≤ y → y < 100 → ∃ s, 0 ≤ s ∧ s < 1 ∧ posInitComponent s = y) ∧
    (-5 ≤ y → y < 5 → ∃ s, 0 ≤ s ∧ s < 1 ∧ velInitComponent s = y) := by
  refine ⟨fun h0 h1 => ?_, fun h0 h1 => ?_, fun h0 h1 => ?_⟩
  · unfold posInitComponent velInitComponent
    refine ⟨by linarith, by linarith, by linarith, by linarith⟩
  · refine ⟨y / 100, by linarith, by linarith, ?_⟩
    unfold posInitComponent
    ring
  · refine ⟨y / 10 + 0.5, by linarith, by linarith, ?_⟩
    unfold velInitComponent
    ring

/-- Witness for C8 at the concrete random value one half: the written position
    component 50 lies in the half-open position interval and the written
    velocity component 0 lies in the half-open velocity interval. -/
theorem c8_init_ranges_witness :
    0 ≤ posInitComponent 0.5 ∧ posInitComponent 0.5 < 100 ∧
    -5 ≤ velInitComponent 0.5 ∧ velInitComponent 0.5 < 5 :=
  (c8_init_ranges 0.5 0).1 (by norm_num) (by norm_num)

/-- C3 counterexample: with the default configuration and dt = 0.016 the
    alignment weight at its inner edge t = 0 is 0.008, not 0, while the
    separation formula at the boundary percent = separationThresh gives 0;
    the resulting jump exceeds the single-precision machine epsilon. -/
theorem c3_boundary_jump_cex :
    alignmentWeight 0 0.016 = 0.008 ∧
    separationForceMag (separationThresh ⟨20, 30, 20, 500⟩)
      (separationThresh ⟨20, 30, 20, 500⟩) 0.016 = 0 ∧
    ¬ (|alignmentWeight 0 0.016 -
        separationForceMag (separationThresh ⟨20, 30, 20, 500⟩)
          (separationThresh ⟨20, 30, 20, 500⟩) 0.016| ≤ (2 : ℝ) ^ (-23 : ℤ)) := by
  have hsep : separationThresh ⟨20, 30, 20, 500⟩ = 2 / 7 := by
    unfold separationThresh zoneRadius
    norm_num
  have h1 : alignmentWeight 0 0.016 = 0.008 := by
    unfold alignmentWeight
    rw [zero_mul, Real.cos_zero]
    norm_num
  have h2 : separationForceMag (separationThresh ⟨20, 30, 20, 500⟩)
      (separationThresh ⟨20, 30, 20, 500⟩) 0.016 = 0 := by
    unfold separationForceMag
    rw [hsep]
    norm_num
  refine ⟨h1, h2, ?_⟩
  rw [h1, h2]
  intro hcon
  rw [abs_of_pos (by norm_num)] at hcon
  have : ((2 : ℝ) ^ (-23 : ℤ)) = 1 / 8388608 := by
    norm_num
  rw [this] at hcon
  norm_num at hcon

/-- C3 corrected: the cohesion weight at its inner edge equals the alignment
    weight at its own inner edge, dt / 2, and across the alignment-cohesion
    boundary the two adjacent formulas differ only by (1 - cos PI_2) / 2 * dt,
    below 1e-10 * dt for the shader constant PI_2; but the alignment weight at
    t = 0 is dt / 2 rather than 0, while the separation formula vanishes at
    the separation boundary, so the force jumps by dt / 2 there. -/
theorem c3_boundary_amended (sepT dt : ℝ) (h : sepT ≠ 0) :
    separationForceMag sepT sepT dt = 0 ∧
    alignmentWeight 0 dt = 0.5 * dt ∧
    cohesionWeight 0 dt = 0.5 * dt ∧
    alignmentWeight 1 dt - cohesionWeight 0 dt = (1 - Real.cos PI_2) * 0.5 * dt ∧
    0 ≤ 1 - Real.cos PI_2 ∧
    1 - Real.cos PI_2 ≤ 1e-10 := by
  have hpi_lo := Real.pi_gt_d6
  have hpi_hi := Real.pi_lt_d6
  set d := 2 * Real.pi - PI_2 with hd
  have hdpos : 0 < d := by
    rw [hd]
    unfold PI_2 shaderPI
    norm_num
    linarith
  have hdlt : d < 0.000006 := by
    rw [hd]
    unfold PI_2 shaderPI
    norm_num
    linarith
  have hcosPI2 : Real.cos PI_2 = Real.cos d := by
    have hrw : PI_2 = 2 * Real.pi - d := by rw [hd]; ring
    rw [hrw, Real.cos_sub, Real.cos_two_pi, Real.sin_two_pi]
    ring
  have hsq_half := Real.sin_sq_eq_half_sub (d / 2)
  have h2d : 2 * (d / 2) = d := by ring
  rw [h2d] at hsq_half
  have hsin_le : Real.sin (d / 2) ≤ d / 2 := le_of_lt (Real.sin_lt (by linarith))
  have hsin_nonneg : 0 ≤ Real.sin (d / 2) :=
    Real.sin_nonneg_of_nonneg_of_le_pi (by linarith)
      (by nlinarith [Real.pi_gt_three])
  have hsinsq : Real.sin (d / 2) ^ 2 ≤ (d / 2) ^ 2 :=
    pow_le_pow_left₀ hsin_nonneg hsin_le 2
  have hcos_hi : 0 ≤ 1 - Real.cos PI_2 := by
    nlinarith [Real.cos_le_one PI_2]
  have hcos_close : 1 - Real.cos PI_2 ≤ 1e-10 := by
    rw [hcosPI2]
    nlinarith
  refine ⟨?_, ?_, ?_, ?_, hcos_hi, hcos_close⟩
  · unfold separationForceMag
    rw [div_self h]
    ring
  · unfold alignmentWeight
    rw [zero_mul, Real.cos_zero]
    ring
  · unfold cohesionWeight
    rw [zero_mul, Real.cos_zero]
    ring
  · unfold alignmentWeight cohesionWeight
    rw [zero_mul, one_mul, Real.cos_zero]
    ring

/-- Witness for C3 at a concrete input: the default separation threshold 2/7
    is nonzero, the separation formula vanishes at the boundary and the
    alignment weight at its inner edge is half of dt = 0.016. -/
theorem c3_boundary_amended_witness :
    separationForceMag (separationThresh ⟨20, 30, 20, 500⟩)
      (separationThresh ⟨20, 30, 20, 500⟩) 0.016 = 0 ∧
    alignmentWeight 0 0.016 = 0.5 * 0.016 := by
  have h := c3_boundary_amended (separationThresh ⟨20, 30, 20, 500⟩) 0.016
    (by unfold separationThresh zoneRadius; norm_num)
  exact ⟨h.1, h.2.1⟩

/-- C4 counterexample: with all zone distances zero the kernel still executes
    the threshold computation of shader line 26, a division by the zero zone
    radius, so the kernel does perform a division by zero and the checked
    kernel flags the whole invocation. -/
theorem c4_division_by_zero_cex :
    divChecked (Params.separation_distance ⟨0, 0, 0, 500⟩) (zoneRadius ⟨0, 0, 0, 500⟩) =
      none ∧
    velocityKernelChecked ⟨0, 0, 0, 500⟩ ⟨1, 1, 0⟩ 0.016 ⟨5, 0, 0⟩ ⟨0, 0, 0⟩ [] = none := by
  have hz : zoneRadius ⟨0, 0, 0, 500⟩ = 0 := by unfold zoneRadius; norm_num
  have hdiv : divChecked (Params.separation_distance ⟨0, 0, 0, 500⟩)
      (zoneRadius ⟨0, 0, 0, 500⟩) = none := by
    unfold divChecked
    rw [hz, if_pos rfl]
  refine ⟨hdiv, ?_⟩
  unfold velocityKernelChecked
  rw [hdiv]
  rfl

/-- C4 corrected: when the zone radius is zero every neighbor record is
    skipped by the squared-radius test, so the written velocity is identical
    to the one computed with no neighbor records at all (the threshold
    divisions still execute against the zero radius, but their results are
    never consumed). -/
theorem c4_zero_zone_no_influence (p : Params) (pred : Vec3) (dt : ℝ)
    (selfPos selfVel : Vec3) (nbs : List (Vec3 × Vec3)) (hz : zoneRadius p = 0) :
    velocityKernel p pred dt selfPos selfVel nbs =
      velocityKernel p pred dt selfPos selfVel [] := by
  have hcontrib : ∀ nb, neighborContrib p dt selfPos nb = Vec3.zero := by
    intro nb
    unfold neighborContrib
    by_cases hlt : (nb.1.sub selfPos).len < 0.0001
    · rw [if_pos hlt]
    · have h1 : (0.0001 : ℝ) ≤ (nb.1.sub selfPos).len := not_lt.mp hlt
      have hgt : (nb.1.sub selfPos).len * (nb.1.sub selfPos).len > zoneRadiusSquared p := by
        unfold zoneRadiusSquared
        rw [hz]
        nlinarith
      rw [if_neg hlt, if_pos hgt]
  have hfold : ∀ (l : List (Vec3 × Vec3)) (acc : Vec3),
      l.foldl (fun acc nb => acc.add (neighborContrib p dt selfPos nb)) acc = acc := by
    intro l
    induction l with
    | nil => intro acc; rfl
    | cons hd tl ih =>
        intro acc
        rw [List.foldl_cons, hcontrib hd, Vec3.add_zero_vec]
        exact ih acc
  have hpre : preClampVelocity p pred dt selfPos selfVel nbs =
      preClampVelocity p pred dt selfPos selfVel [] := by
    unfold preClampVelocity
    rw [hfold, hfold]
  unfold velocityKernel
  rw [hpre]

/-- Witness for C4 at a concrete input: with zero zone distances a neighbor at
    distance 4 changes nothing. -/
theorem c4_zero_zone_witness :
    velocityKernel ⟨0, 0, 0, 500⟩ ⟨1, 1, 0⟩ 0.016 ⟨5, 0, 0⟩ ⟨0, 0, 0⟩
        [(⟨1, 0, 0⟩, ⟨0, 0, 0⟩)] =
      velocityKernel ⟨0, 0, 0, 500⟩ ⟨1, 1, 0⟩ 0.016 ⟨5, 0, 0⟩ ⟨0, 0, 0⟩ [] :=
  c4_zero_zone_no_influence ⟨0, 0, 0, 500⟩ ⟨1, 1, 0⟩ 0.016 ⟨5, 0, 0⟩ ⟨0, 0, 0⟩
    [(⟨1, 0, 0⟩, ⟨0, 0, 0⟩)] (by unfold zoneRadius; norm_num)

/-- C10: the center pull normalizes its direction with no zero-length guard,
    so for an agent exactly at the origin the checked kernel is undefined for
    every predator value, parameter set, and neighbor list; for every agent
    away from the origin the center step is the well-defined subtraction of
    normalize(position with y scaled by 2.5) times dt times 6. -/
theorem c10_center_pull (p : Params) (pred : Vec3) (dt : ℝ) (selfVel : Vec3)
    (nbs : List (Vec3 × Vec3)) :
    velocityKernelChecked p pred dt ⟨0, 0, 0⟩ selfVel nbs = none ∧
    ∀ (pos v : Vec3) (dt2 : ℝ), pos ≠ ⟨0, 0, 0⟩ →
      centerStepChecked dt2 pos v =
        some (v.sub ((Vec3.normalize (centerDir pos)).smul (dt2 * 6))) := by
  constructor
  · have hcd : centerDir ⟨0, 0, 0⟩ = Vec3.zero := by
      simp [centerDir, Vec3.sub, Vec3.zero]
    have hcs : ∀ v, centerStepChecked dt ⟨0, 0, 0⟩ v = none := by
      intro v
      unfold centerStepChecked
      rw [hcd]
      unfold normalizeChecked
      rw [if_pos rfl]
      rfl
    unfold velocityKernelChecked
    cases divChecked p.separation_distance (zoneRadius p) with
    | none => rfl
    | some s1 =>
      cases divChecked (p.separation_distance + p.alignment_distance) (zoneRadius p) with
      | none => rfl
      | some s2 =>
        cases predStepChecked p pred dt ⟨0, 0, 0⟩ selfVel SPEED_LIMIT with
        | none => rfl
        | some vl =>
          show Option.bind (centerStepChecked dt ⟨0, 0, 0⟩ vl.1) _ = none
          rw [hcs vl.1]
          rfl
  · intro pos v dt2 hpos
    have hne : centerDir pos ≠ Vec3.zero := by
      intro hcd
      apply hpos
      unfold centerDir Vec3.sub Vec3.zero at hcd
      have hx := congrArg Vec3.x hcd
      have hy := congrArg Vec3.y hcd
      have hzc := congrArg Vec3.z hcd
      simp only at hx hy hzc
      have hx0 : pos.x = 0 := by linarith
      have hy0 : pos.y = 0 := by linarith
      have hz0 : pos.z = 0 := by linarith
      ext <;> simp [hx0, hy0, hz0]
    unfold centerStepChecked normalizeChecked
    rw [if_neg hne]
    rfl

/-- Witness for C10: the checked kernel at the origin with the default
    configuration is undefined, and for the off-origin agent at (3, 0, 0) the
    checked center step is the stated finite subtraction. -/
theorem c10_center_pull_witness :
    velocityKernelChecked ⟨20, 30, 20, 500⟩ ⟨1, 1, 0⟩ 0.016 ⟨0, 0, 0⟩ ⟨0, 0, 0⟩ [] = none ∧
    centerStepChecked 1 ⟨3, 0, 0⟩ ⟨0, 0, 0⟩ =
      some ((⟨0, 0, 0⟩ : Vec3).sub ((Vec3.normalize (centerDir ⟨3, 0, 0⟩)).smul (1 * 6))) := by
  have h := c10_center_pull ⟨20, 30, 20, 500⟩ ⟨1, 1, 0⟩ 0.016 ⟨0, 0, 0⟩ []
  refine ⟨h.1, h.2 ⟨3, 0, 0⟩ ⟨0, 0, 0⟩ 1 ?_⟩
  intro hcon
  have hx := congrArg Vec3.x hcon
  norm_num at hx

/-- Evaluation helper: normalize of a concrete vector with known length. -/
theorem normalize_eval {a b c r ax bx cx : ℝ} (hr : 0 ≤ r)
    (h : r * r = a * a + b * b + c * c)
    (ha : a * r⁻¹ = ax) (hb : b * r⁻¹ = bx) (hc : c * r⁻¹ = cx) :
    Vec3.normalize ⟨a, b, c⟩ = ⟨ax, bx, cx⟩ := by
  unfold Vec3.normalize
  rw [Vec3.len_eval hr h]
  unfold Vec3.smul
  rw [ha, hb, hc]

/-- The zero vector scaled is the zero vector. -/
theorem zero_smul_vec (c : ℝ) : Vec3.zero.smul c = Vec3.zero := by
  unfold Vec3.smul Vec3.zero
  ext <;> simp

/-- Componentwise equality of concrete vectors. -/
theorem mk_eq {a b c d e f : ℝ} (h1 : a = d) (h2 : b = e) (h3 : c = f) :
    (⟨a, b, c⟩ : Vec3) = ⟨d, e, f⟩ := by
  rw [h1, h2, h3]

/-- C2 (code bug): the render loop consumes a pointer sample by parking the
    mouse position at 10000, but never clears the predator uniform, so the
    sample stays visible to every later frame.  After one pointer event at
    client (600, 500) in a 1000 by 1000 viewport and a second render with no
    pointer activity, the predator uniform still holds the frame-1 sample
    (0.1, 0, 0); the kernel invocation of frame 2 for an agent at (20, 0, 0)
    yields (0.8256, 0, 0), not the skipped-predator result (-0.096, 0, 0). -/
theorem c2_stale_predator :
    (renderPredatorUpdate 500 500
        (renderPredatorUpdate 500 500
          (onDocumentMouseMove 500 500 600 500 initialMouseState))).predator =
      ⟨0.1, 0, 0⟩ ∧
    velocityKernel ⟨20, 30, 20, 500⟩ ⟨0.1, 0, 0⟩ 0.016 ⟨20, 0, 0⟩ ⟨0, 0, 0⟩
        [(⟨20, 0, 0⟩, ⟨0, 0, 0⟩)] = ⟨0.8256, 0, 0⟩ ∧
    velocityKernelNoPred ⟨20, 30, 20, 500⟩ 0.016 ⟨20, 0, 0⟩ ⟨0, 0, 0⟩
        [(⟨20, 0, 0⟩, ⟨0, 0, 0⟩)] = ⟨-0.096, 0, 0⟩ ∧
    velocityKernel ⟨20, 30, 20, 500⟩ ⟨0.1, 0, 0⟩ 0.016 ⟨20, 0, 0⟩ ⟨0, 0, 0⟩
        [(⟨20, 0, 0⟩, ⟨0, 0, 0⟩)] ≠
      velocityKernelNoPred ⟨20, 30, 20, 500⟩ 0.016 ⟨20, 0, 0⟩ ⟨0, 0, 0⟩
        [(⟨20, 0, 0⟩, ⟨0, 0, 0⟩)] := by
  have hmove : onDocumentMouseMove 500 500 600 500 initialMouseState =
      ⟨100, 0, Vec3.zero⟩ := by
    unfold onDocumentMouseMove initialMouseState
    simp [MouseState.mk.injEq]
    norm_num
  have hstep1 : renderPredatorUpdate 500 500 (⟨100, 0, Vec3.zero⟩ : MouseState) =
      ⟨10000, 10000, ⟨0.1, 0, 0⟩⟩ := by
    unfold renderPredatorUpdate
    rw [if_pos (by norm_num)]
    simp [MouseState.mk.injEq, Vec3.mk.injEq]
    norm_num
  have hstep2 : renderPredatorUpdate 500 500 (⟨10000, 10000, ⟨0.1, 0, 0⟩⟩ : MouseState) =
      ⟨10000, 10000, ⟨0.1, 0, 0⟩⟩ := by
    unfold renderPredatorUpdate
    rw [if_neg]
    intro hcon
    have h1 := hcon.1
    norm_num at h1
  have hpd : planarPredDir ⟨20, 30, 20, 500⟩ ⟨0.1, 0, 0⟩ ⟨20, 0, 0⟩ = ⟨30, 0, 0⟩ := by
    simp [planarPredDir, Vec3.smul, Vec3.sub, Vec3.mk.injEq]
    norm_num
  have hpdlen : (planarPredDir ⟨20, 30, 20, 500⟩ ⟨0.1, 0, 0⟩ ⟨20, 0, 0⟩).len = 30 := by
    rw [hpd]; exact Vec3.len_eval (by norm_num) (by norm_num)
  have hn30 : Vec3.normalize ⟨30, 0, 0⟩ = ⟨1, 0, 0⟩ :=
    normalize_eval (r := 30) (by norm_num) (by norm_num) (by norm_num) (by norm_num)
      (by norm_num)
  have hps : predStep ⟨20, 30, 20, 500⟩ ⟨0.1, 0, 0⟩ 0.016 ⟨20, 0, 0⟩ ⟨0, 0, 0⟩ SPEED_LIMIT =
      (⟨0.9216, 0, 0⟩, 15) := by
    simp only [predStep]
    rw [hpdlen, if_pos (by norm_num [preyRadius]), hpd, hn30]
    simp [Vec3.add, Vec3.smul, Prod.ext_iff, Vec3.mk.injEq, preyRadius, SPEED_LIMIT]
    norm_num
  have hcd20 : centerDir ⟨20, 0, 0⟩ = ⟨20, 0, 0⟩ := by
    simp [centerDir, Vec3.sub, Vec3.zero]
  have hn20 : Vec3.normalize ⟨20, 0, 0⟩ = ⟨1, 0, 0⟩ :=
    normalize_eval (r := 20) (by norm_num) (by norm_num) (by norm_num) (by norm_num)
      (by norm_num)
  have hcs : centerStep 0.016 ⟨20, 0, 0⟩ ⟨0.9216, 0, 0⟩ = ⟨0.8256, 0, 0⟩ := by
    unfold centerStep
    rw [hcd20, hn20]
    simp [Vec3.sub, Vec3.smul, Vec3.mk.injEq]
    norm_num
  have hcs0 : centerStep 0.016 ⟨20, 0, 0⟩ ⟨0, 0, 0⟩ = ⟨-0.096, 0, 0⟩ := by
    unfold centerStep
    rw [hcd20, hn20]
    simp [Vec3.sub, Vec3.smul, Vec3.mk.injEq]
    norm_num
  have hself : neighborContrib ⟨20, 30, 20, 500⟩ 0.016 ⟨20, 0, 0⟩ (⟨20, 0, 0⟩, ⟨0, 0, 0⟩) =
      Vec3.zero := by
    simp only [neighborContrib]
    have hsub : (⟨20, 0, 0⟩ : Vec3).sub ⟨20, 0, 0⟩ = ⟨0, 0, 0⟩ := by
      simp [Vec3.sub]
    rw [hsub, Vec3.len_eval (r := 0) le_rfl (by norm_num), if_pos (by norm_num)]
  have hpre : preClampVelocity ⟨20, 30, 20, 500⟩ ⟨0.1, 0, 0⟩ 0.016 ⟨20, 0, 0⟩ ⟨0, 0, 0⟩
      [(⟨20, 0, 0⟩, ⟨0, 0, 0⟩)] = ⟨0.8256, 0, 0⟩ := by
    simp only [preClampVelocity, hps, List.foldl_cons, List.foldl_nil, hself,
      Vec3.add_zero_vec]
    exact hcs
  have hker : velocityKernel ⟨20, 30, 20, 500⟩ ⟨0.1, 0, 0⟩ 0.016 ⟨20, 0, 0⟩ ⟨0, 0, 0⟩
      [(⟨20, 0, 0⟩, ⟨0, 0, 0⟩)] = ⟨0.8256, 0, 0⟩ := by
    simp only [velocityKernel, hps, hpre]
    rw [Vec3.len_eval (r := 0.8256) (by norm_num) (by norm_num), if_neg (by norm_num)]
  have hkerNP : velocityKernelNoPred ⟨20, 30, 20, 500⟩ 0.016 ⟨20, 0, 0⟩ ⟨0, 0, 0⟩
      [(⟨20, 0, 0⟩, ⟨0, 0, 0⟩)] = ⟨-0.096, 0, 0⟩ := by
    simp only [velocityKernelNoPred, hcs0, List.foldl_cons, List.foldl_nil, hself,
      Vec3.add_zero_vec]
    rw [Vec3.len_eval (r := 0.096) (by norm_num) (by norm_num),
      if_neg (by norm_num [SPEED_LIMIT])]
  refine ⟨?_, hker, hkerNP, ?_⟩
  · rw [hmove, hstep1, hstep2]
  · rw [hker, hkerNP]
    intro hcon
    have hx := congrArg Vec3.x hcon
    norm_num at hx

/-- C5 counterexample: in the stated two-agent scenario agent A sits exactly
    at the origin, so the unguarded center-pull normalize divides by zero and
    the checked kernel marks the A result undefined rather than a well-defined
    finite vector (the predator target is placed out of range, realizing the
    no-predator condition of the scenario in a kernel whose predator branch
    always runs). -/
theorem c5_origin_agent_undefined_cex :
    velocityKernelChecked ⟨20, 30, 20, 500⟩ ⟨1, 1, 0⟩ 0.016 ⟨0, 0, 0⟩ ⟨0, 0, 0⟩
      [(⟨0, 0, 0⟩, ⟨0, 0, 0⟩), (⟨10, 0, 0⟩, ⟨0, 0, 0⟩)] = none := by
  have hq1 : divChecked (Params.separation_distance ⟨20, 30, 20, 500⟩)
      (zoneRadius ⟨20, 30, 20, 500⟩) = some (20 / 70) := by
    unfold divChecked zoneRadius
    rw [if_neg (by norm_num)]
    norm_num
  have hq2 : divChecked
      (Params.separation_distance ⟨20, 30, 20, 500⟩ +
        Params.alignment_distance ⟨20, 30, 20, 500⟩)
      (zoneRadius ⟨20, 30, 20, 500⟩) = some (50 / 70) := by
    unfold divChecked zoneRadius
    rw [if_neg (by norm_num)]
    norm_num
  have hpdA : planarPredDir ⟨20, 30, 20, 500⟩ ⟨1, 1, 0⟩ ⟨0, 0, 0⟩ = ⟨500, 500, 0⟩ := by
    simp only [planarPredDir, Vec3.smul, Vec3.sub]
    exact mk_eq (by norm_num) (by norm_num) (by norm_num)
  have hgeA : ¬ ((planarPredDir ⟨20, 30, 20, 500⟩ ⟨1, 1, 0⟩ ⟨0, 0, 0⟩).len < preyRadius) := by
    rw [hpdA]
    apply not_lt.mpr
    rw [Vec3.len_mk, show preyRadius = (50 : ℝ) from by norm_num [preyRadius],
      Real.le_sqrt (by norm_num) (by norm_num)]
    norm_num
  have hpsA : predStepChecked ⟨20, 30, 20, 500⟩ ⟨1, 1, 0⟩ 0.016 ⟨0, 0, 0⟩ ⟨0, 0, 0⟩
      SPEED_LIMIT = some (⟨0, 0, 0⟩, SPEED_LIMIT) := by
    simp only [predStepChecked]
    rw [if_neg hgeA]
  have hcenterA : ∀ v, centerStepChecked 0.016 ⟨0, 0, 0⟩ v = none := by
    intro v
    unfold centerStepChecked
    have hcd : centerDir ⟨0, 0, 0⟩ = Vec3.zero := by
      simp [centerDir, Vec3.sub, Vec3.zero]
    rw [hcd]
    unfold normalizeChecked
    rw [if_pos rfl]
    rfl
  simp only [velocityKernelChecked, hq1, hq2, hpsA, Option.some_bind, hcenterA,
    Option.none_bind]

/-- C5 corrected: with the predator target out of range, one velocity update
    in the two-agent scenario gives B the velocity (0.112, 0, 0), a component
    along plus x composed of the separation push 0.208 =
    (sepThresh / percent - 1) * dt minus the center pull 0.096, well-defined
    also in the checked model; A sits at the origin where the center-pull
    normalize is undefined, and in the total model that evaluates the
    degenerate normalize to the zero vector A gets (-0.208, 0, 0), a component
    along minus x of the same separation magnitude. -/
theorem c5_two_agent_scenario :
    velocityKernel ⟨20, 30, 20, 500⟩ ⟨1, 1, 0⟩ 0.016 ⟨0, 0, 0⟩ ⟨0, 0, 0⟩
      [(⟨0, 0, 0⟩, ⟨0, 0, 0⟩), (⟨10, 0, 0⟩, ⟨0, 0, 0⟩)] = ⟨-0.208, 0, 0⟩ ∧
    velocityKernel ⟨20, 30, 20, 500⟩ ⟨1, 1, 0⟩ 0.016 ⟨10, 0, 0⟩ ⟨0, 0, 0⟩
      [(⟨0, 0, 0⟩, ⟨0, 0, 0⟩), (⟨10, 0, 0⟩, ⟨0, 0, 0⟩)] = ⟨0.112, 0, 0⟩ ∧
    velocityKernelChecked ⟨20, 30, 20, 500⟩ ⟨1, 1, 0⟩ 0.016 ⟨10, 0, 0⟩ ⟨0, 0, 0⟩
      [(⟨0, 0, 0⟩, ⟨0, 0, 0⟩), (⟨10, 0, 0⟩, ⟨0, 0, 0⟩)] = some ⟨0.112, 0, 0⟩ ∧
    separationForceMag (separationThresh ⟨20, 30, 20, 500⟩)
      (10 * 10 / zoneRadiusSquared ⟨20, 30, 20, 500⟩) 0.016 = 0.208 := by
  have hn10 : Vec3.normalize ⟨10, 0, 0⟩ = ⟨1, 0, 0⟩ :=
    normalize_eval (r := 10) (by norm_num) (by norm_num) (by norm_num) (by norm_num)
      (by norm_num)
  have hnm10 : Vec3.normalize ⟨-10, 0, 0⟩ = ⟨-1, 0, 0⟩ :=
    normalize_eval (r := 10) (by norm_num) (by norm_num) (by norm_num) (by norm_num)
      (by norm_num)
  have hsfm : separationForceMag (separationThresh ⟨20, 30, 20, 500⟩)
      (10 * 10 / zoneRadiusSquared ⟨20, 30, 20, 500⟩) 0.016 = 0.208 := by
    norm_num [separationForceMag, separationThresh, zoneRadiusSquared, zoneRadius]
  have hzone : ¬ ((10 : ℝ) * 10 > zoneRadiusSquared ⟨20, 30, 20, 500⟩) := by
    norm_num [zoneRadiusSquared, zoneRadius]
  have hsepcond : (10 : ℝ) * 10 / zoneRadiusSquared ⟨20, 30, 20, 500⟩ <
      separationThresh ⟨20, 30, 20, 500⟩ := by
    norm_num [zoneRadiusSquared, zoneRadius, separationThresh]
  have hpdA : planarPredDir ⟨20, 30, 20, 500⟩ ⟨1, 1, 0⟩ ⟨0, 0, 0⟩ = ⟨500, 500, 0⟩ := by
    simp only [planarPredDir, Vec3.smul, Vec3.sub]
    exact mk_eq (by norm_num) (by norm_num) (by norm_num)
  have hgeA : ¬ ((planarPredDir ⟨20, 30, 20, 500⟩ ⟨1, 1, 0⟩ ⟨0, 0, 0⟩).len < preyRadius) := by
    rw [hpdA]
    apply not_lt.mpr
    rw [Vec3.len_mk, show preyRadius = (50 : ℝ) from by norm_num [preyRadius],
      Real.le_sqrt (by norm_num) (by norm_num)]
    norm_num
  have hpdB : planarPredDir ⟨20, 30, 20, 500⟩ ⟨1, 1, 0⟩ ⟨10, 0, 0⟩ = ⟨490, 500, 0⟩ := by
    simp only [planarPredDir, Vec3.smul, Vec3.sub]
    exact mk_eq (by norm_num) (by norm_num) (by norm_num)
  have hgeB : ¬ ((planarPredDir ⟨20, 30, 20, 500⟩ ⟨1, 1, 0⟩ ⟨10, 0, 0⟩).len < preyRadius) := by
    rw [hpdB]
    apply not_lt.mpr
    rw [Vec3.len_mk, show preyRadius = (50 : ℝ) from by norm_num [preyRadius],
      Real.le_sqrt (by norm_num) (by norm_num)]
    norm_num
  have hcdA : centerDir ⟨0, 0, 0⟩ = Vec3.zero := by
    simp [centerDir, Vec3.sub, Vec3.zero]
  have hcd10 : centerDir ⟨10, 0, 0⟩ = ⟨10, 0, 0⟩ := by
    simp [centerDir, Vec3.sub, Vec3.zero]
  have hselfA : neighborContrib ⟨20, 30, 20, 500⟩ 0.016 ⟨0, 0, 0⟩ (⟨0, 0, 0⟩, ⟨0, 0, 0⟩) =
      Vec3.zero := by
    simp only [neighborContrib]
    have hsub : (⟨0, 0, 0⟩ : Vec3).sub ⟨0, 0, 0⟩ = ⟨0, 0, 0⟩ := by simp [Vec3.sub]
    rw [hsub, Vec3.len_eval (r := 0) le_rfl (by norm_num), if_pos (by norm_num)]
  have hsubB : (⟨10, 0, 0⟩ : Vec3).sub ⟨0, 0, 0⟩ = ⟨10, 0, 0⟩ := by
    simp only [Vec3.sub]
    exact mk_eq (by norm_num) (by norm_num) (by norm_num)
  have hncB_A : neighborContrib ⟨20, 30, 20, 500⟩ 0.016 ⟨0, 0, 0⟩ (⟨10, 0, 0⟩, ⟨0, 0, 0⟩) =
      ⟨-0.208, 0, 0⟩ := by
    simp only [neighborContrib]
    rw [hsubB, Vec3.len_eval (r := 10) (by norm_num) (by norm_num)]
    rw [if_neg (by norm_num), if_neg hzone, if_pos hsepcond, hsfm, hn10]
    simp only [Vec3.smul, Vec3.neg]
    exact mk_eq (by norm_num) (by norm_num) (by norm_num)
  have hpsA2 : predStep ⟨20, 30, 20, 500⟩ ⟨1, 1, 0⟩ 0.016 ⟨0, 0, 0⟩ ⟨0, 0, 0⟩ SPEED_LIMIT =
      (⟨0, 0, 0⟩, SPEED_LIMIT) := by
    simp only [predStep]
    rw [if_neg hgeA]
  have hcsA : centerStep 0.016 ⟨0, 0, 0⟩ ⟨0, 0, 0⟩ = ⟨0, 0, 0⟩ := by
    unfold centerStep
    rw [hcdA, Vec3.normalize_zero, zero_smul_vec, Vec3.sub_zero_vec]
  have hpreA : preClampVelocity ⟨20, 30, 20, 500⟩ ⟨1, 1, 0⟩ 0.016 ⟨0, 0, 0⟩ ⟨0, 0, 0⟩
      [(⟨0, 0, 0⟩, ⟨0, 0, 0⟩), (⟨10, 0, 0⟩, ⟨0, 0, 0⟩)] = ⟨-0.208, 0, 0⟩ := by
    simp only [preClampVelocity, hpsA2, List.foldl_cons, List.foldl_nil, hselfA,
      Vec3.add_zero_vec, hcsA, hncB_A]
    simp only [Vec3.add]
    exact mk_eq (by norm_num) (by norm_num) (by norm_num)
  have hkerA : velocityKernel ⟨20, 30, 20, 500⟩ ⟨1, 1, 0⟩ 0.016 ⟨0, 0, 0⟩ ⟨0, 0, 0⟩
      [(⟨0, 0, 0⟩, ⟨0, 0, 0⟩), (⟨10, 0, 0⟩, ⟨0, 0, 0⟩)] = ⟨-0.208, 0, 0⟩ := by
    simp only [velocityKernel, hpsA2, hpreA]
    rw [Vec3.len_eval (r := 0.208) (by norm_num) (by norm_num),
      if_neg (by norm_num [SPEED_LIMIT])]
  have hpsB2 : predStep ⟨20, 30, 20, 500⟩ ⟨1, 1, 0⟩ 0.016 ⟨10, 0, 0⟩ ⟨0, 0, 0⟩ SPEED_LIMIT =
      (⟨0, 0, 0⟩, SPEED_LIMIT) := by
    simp only [predStep]
    rw [if_neg hgeB]
  have hcsB : centerStep 0.016 ⟨10, 0, 0⟩ ⟨0, 0, 0⟩ = ⟨-0.096, 0, 0⟩ := by
    unfold centerStep
    rw [hcd10, hn10]
    simp only [Vec3.sub, Vec3.smul]
    exact mk_eq (by norm_num) (by norm_num) (by norm_num)
  have hsubA_B : (⟨0, 0, 0⟩ : Vec3).sub ⟨10, 0, 0⟩ = ⟨-10, 0, 0⟩ := by
    simp only [Vec3.sub]
    exact mk_eq (by norm_num) (by norm_num) (by norm_num)
  have hncA_B : neighborContrib ⟨20, 30, 20, 500⟩ 0.016 ⟨10, 0, 0⟩ (⟨0, 0, 0⟩, ⟨0, 0, 0⟩) =
      ⟨0.208, 0, 0⟩ := by
    simp only [neighborContrib]
    rw [hsubA_B, Vec3.len_eval (r := 10) (by norm_num) (by norm_num)]
    rw [if_neg (by norm_num), if_neg hzone, if_pos hsepcond, hsfm, hnm10]
    simp only [Vec3.smul, Vec3.neg]
    exact mk_eq (by norm_num) (by norm_num) (by norm_num)
  have hselfB : neighborContrib ⟨20, 30, 20, 500⟩ 0.016 ⟨10, 0, 0⟩ (⟨10, 0, 0⟩, ⟨0, 0, 0⟩) =
      Vec3.zero := by
    simp only [neighborContrib]
    have hsub : (⟨10, 0, 0⟩ : Vec3).sub ⟨10, 0, 0⟩ = ⟨0, 0, 0⟩ := by simp [Vec3.sub]
    rw [hsub, Vec3.len_eval (r := 0) le_rfl (by norm_num), if_pos (by norm_num)]
  have hpreB : preClampVelocity ⟨20, 30, 20, 500⟩ ⟨1, 1, 0⟩ 0.016 ⟨10, 0, 0⟩ ⟨0, 0, 0⟩
      [(⟨0, 0, 0⟩, ⟨0, 0, 0⟩), (⟨10, 0, 0⟩, ⟨0, 0, 0⟩)] = ⟨0.112, 0, 0⟩ := by
    simp only [preClampVelocity, hpsB2, List.foldl_cons, List.foldl_nil, hcsB, hncA_B,
      hselfB, Vec3.add_zero_vec]
    simp only [Vec3.add]
    exact mk_eq (by norm_num) (by norm_num) (by norm_num)
  have hkerB : velocityKernel ⟨20, 30, 20, 500⟩ ⟨1, 1, 0⟩ 0.016 ⟨10, 0, 0⟩ ⟨0, 0, 0⟩
      [(⟨0, 0, 0⟩, ⟨0, 0, 0⟩), (⟨10, 0, 0⟩, ⟨0, 0, 0⟩)] = ⟨0.112, 0, 0⟩ := by
    simp only [velocityKernel, hpsB2, hpreB]
    rw [Vec3.len_eval (r := 0.112) (by norm_num) (by norm_num),
      if_neg (by norm_num [SPEED_LIMIT])]
  have hq1 : divChecked (Params.separation_distance ⟨20, 30, 20, 500⟩)
      (zoneRadius ⟨20, 30, 20, 500⟩) = some (20 / 70) := by
    unfold divChecked zoneRadius
    rw [if_neg (by norm_num)]
    norm_num
  have hq2 : divChecked
      (Params.separation_distance ⟨20, 30, 20, 500⟩ +
        Params.alignment_distance ⟨20, 30, 20, 500⟩)
      (zoneRadius ⟨20, 30, 20, 500⟩) = some (50 / 70) := by
    unfold divChecked zoneRadius
    rw [if_neg (by norm_num)]
    norm_num
  have hpsBC : predStepChecked ⟨20, 30, 20, 500⟩ ⟨1, 1, 0⟩ 0.016 ⟨10, 0, 0⟩ ⟨0, 0, 0⟩
      SPEED_LIMIT = some (⟨0, 0, 0⟩, SPEED_LIMIT) := by
    simp only [predStepChecked]
    rw [if_neg hgeB]
  have h10ne : (⟨10, 0, 0⟩ : Vec3) ≠ Vec3.zero := by
    intro hcon
    have hx := congrArg Vec3.x hcon
    simp [Vec3.zero] at hx
  have hm10ne : (⟨-10, 0, 0⟩ : Vec3) ≠ Vec3.zero := by
    intro hcon
    have hx := congrArg Vec3.x hcon
    simp [Vec3.zero] at hx
  have hcsBC : centerStepChecked 0.016 ⟨10, 0, 0⟩ ⟨0, 0, 0⟩ = some ⟨-0.096, 0, 0⟩ := by
    unfold centerStepChecked
    rw [hcd10]
    unfold normalizeChecked
    rw [if_neg h10ne, Option.map_some', hn10]
    simp only [Vec3.sub, Vec3.smul, Option.some.injEq]
    exact mk_eq (by norm_num) (by norm_num) (by norm_num)
  have hncABC : neighborContribChecked ⟨20, 30, 20, 500⟩ 0.016 ⟨10, 0, 0⟩
      (⟨0, 0, 0⟩, ⟨0, 0, 0⟩) = some ⟨0.208, 0, 0⟩ := by
    simp only [neighborContribChecked]
    rw [hsubA_B, Vec3.len_eval (r := 10) (by norm_num) (by norm_num)]
    rw [if_neg (by norm_num), if_neg hzone]
    have hdp : divChecked ((10 : ℝ) * 10) (zoneRadiusSquared ⟨20, 30, 20, 500⟩) =
        some (10 * 10 / zoneRadiusSquared ⟨20, 30, 20, 500⟩) := by
      unfold divChecked
      rw [if_neg (by norm_num [zoneRadiusSquared, zoneRadius])]
    rw [hdp, Option.some_bind, if_pos hsepcond]
    have hdq : divChecked (separationThresh ⟨20, 30, 20, 500⟩)
        ((10 : ℝ) * 10 / zoneRadiusSquared ⟨20, 30, 20, 500⟩) = some 14 := by
      unfold divChecked
      rw [if_neg (by norm_num [zoneRadiusSquared, zoneRadius])]
      simp only [Option.some.injEq]
      norm_num [separationThresh, zoneRadiusSquared, zoneRadius]
    rw [hdq, Option.some_bind]
    have hnmC : normalizeChecked ⟨-10, 0, 0⟩ = some ⟨-1, 0, 0⟩ := by
      unfold normalizeChecked
      rw [if_neg hm10ne, hnm10]
    rw [hnmC, Option.map_some']
    simp only [Vec3.smul, Vec3.neg, Option.some.injEq]
    exact mk_eq (by norm_num) (by norm_num) (by norm_num)
  have hselfBC : neighborContribChecked ⟨20, 30, 20, 500⟩ 0.016 ⟨10, 0, 0⟩
      (⟨10, 0, 0⟩, ⟨0, 0, 0⟩) = some Vec3.zero := by
    simp only [neighborContribChecked]
    have hsub : (⟨10, 0, 0⟩ : Vec3).sub ⟨10, 0, 0⟩ = ⟨0, 0, 0⟩ := by simp [Vec3.sub]
    rw [hsub, Vec3.len_eval (r := 0) le_rfl (by norm_num), if_pos (by norm_num)]
  have hclamp : ∀ v : Vec3, v = ⟨0.112, 0, 0⟩ →
      clampChecked SPEED_LIMIT v = some ⟨0.112, 0, 0⟩ := by
    intro v hv
    rw [hv]
    unfold clampChecked
    rw [Vec3.len_eval (r := 0.112) (by norm_num) (by norm_num),
      if_neg (by norm_num [SPEED_LIMIT])]
  have hkerBC : velocityKernelChecked ⟨20, 30, 20, 500⟩ ⟨1, 1, 0⟩ 0.016 ⟨10, 0, 0⟩ ⟨0, 0, 0⟩
      [(⟨0, 0, 0⟩, ⟨0, 0, 0⟩), (⟨10, 0, 0⟩, ⟨0, 0, 0⟩)] = some ⟨0.112, 0, 0⟩ := by
    simp only [velocityKernelChecked, hq1, hq2, hpsBC, hcsBC, List.foldlM_cons,
      List.foldlM_nil, Option.bind_eq_bind, Option.pure_def, Option.some_bind,
      Option.map_some', Option.bind_some, hncABC, hselfBC, Vec3.add_zero_vec]
    refine hclamp _ ?_
    simp only [Vec3.add]
    exact mk_eq (by norm_num) (by norm_num) (by norm_num)
  exact ⟨hkerA, hkerB, hkerBC, hsfm⟩

end
